import Mathlib

/-!
# Wireworld rule engine — verification of the specification against `src/main.py`

Shallow embedding of the rule-matching and grid-stepping core of the
repository: `Rule._count_neighbors`, `Rule.matches`, `RuleSet`,
`Grid.__init__`, `Grid.step`, `Grid.calculate_next_cell_state`.

Cell states are the single-character alias strings the code stores in its
numpy array of `str` (e.g. `"_"`, `"H"`, `"T"`, `"W"`); a grid is the
row-major list of rows, indexed `grid[x][y]` with `x` ranging over the
height (rows) and `y` over the width (columns), exactly as in the source.
Logging (`enable_logging`, `log_file`) is I/O and is omitted: it never
feeds back into any state computation.
-/

/-- A grid of cell states, row-major: `grid[x][y]`, `x` a row index. -/
abbrev CellGrid := List (List String)

/-- numpy's `grid.shape` for the 2-D string arrays the code builds:
`(h, w)` = (number of rows, length of the first row). -/
def gridShape (g : CellGrid) : Nat × Nat := (g.length, (g.headD []).length)

/-- The bounds test `0 <= px < h and 0 <= py < w` used throughout
`main.py` before any grid access. -/
def inb (h w : Nat) (px py : Int) : Bool :=
  decide (0 ≤ px) && decide (px < (h : Int)) && decide (0 ≤ py) && decide (py < (w : Int))

/-- Read `grid[px, py]`.  The code only reads after `inb` has succeeded,
so the default returned on an out-of-range index is never observable. -/
def gridGet (g : CellGrid) (px py : Int) : String :=
  (g.getD px.toNat []).getD py.toNat ""

/-- The offset enumeration `for dx in range(-1, 2): for dy in range(-1, 2)`. -/
def offsets9 : List (Int × Int) :=
  ([-1, 0, 1] : List Int).flatMap fun dx => ([-1, 0, 1] : List Int).map fun dy => (dx, dy)

/-- One entry of a rule's `conditions` list.  The code reads the keys
`'type'`, `'state'` and `'values'`; the `operator` field is part of the
stored dictionary (the spec's data model declares it) but `Rule.matches`
never consults it. -/
structure Condition where
  type : String
  state : String
  operator : String
  values : List Nat

/-- A rule: name, description, 3×3 `pattern` (indexed `pattern[dx+1][dy+1]`),
the `new_state` produced on a match, and the auxiliary `conditions`. -/
structure Rule where
  name : String
  description : String
  pattern : List (List String)
  new_state : String
  conditions : List Condition

/-- `Rule._count_neighbors`: count, over the 8 offsets `(dx,dy) ≠ (0,0)`,
the in-bounds neighbors whose state equals `state_to_count`. -/
def count_neighbors (g : CellGrid) (x y : Int) (state_to_count : String) : Nat :=
  let hw := gridShape g
  (offsets9.filter fun d =>
    !(d.1 == 0 && d.2 == 0) &&
    inb hw.1 hw.2 (x + d.1) (y + d.2) &&
    (gridGet g (x + d.1) (y + d.2) == state_to_count)).length

/-- The pattern lookup `self.pattern[dx + 1][dy + 1]`. -/
def patCell (p : List (List String)) (dx dy : Int) : String :=
  (p.getD (dx + 1).toNat []).getD (dy + 1).toNat ""

/-- The body of the pattern loop of `Rule.matches` for one offset:
`'X'` is the wildcard and matches anything; otherwise the neighbor must be
in bounds and hold exactly the pattern's state. -/
def offsetOk (r : Rule) (g : CellGrid) (x y dx dy : Int) : Bool :=
  let pc := patCell r.pattern dx dy
  if pc == "X" then true
  else
    let hw := gridShape g
    inb hw.1 hw.2 (x + dx) (y + dy) && (gridGet g (x + dx) (y + dy) == pc)

/-- Part 1 of `Rule.matches`: the full 3×3 pattern check. -/
def patternOk (r : Rule) (g : CellGrid) (x y : Int) : Bool :=
  offsets9.all fun d => offsetOk r g x y d.1 d.2

/-- The body of the condition loop of `Rule.matches` for one condition:
a `'neighbor_count'` condition passes iff the count is a member of
`values`; any other `type` is skipped (vacuously passes). -/
def condOk (c : Condition) (g : CellGrid) (x y : Int) : Bool :=
  if c.type == "neighbor_count" then
    decide (count_neighbors g x y c.state ∈ c.values)
  else true

/-- `Rule.matches`: the 3×3 pattern and then every condition must pass. -/
def Rule.mtch (r : Rule) (g : CellGrid) (x y : Int) : Bool :=
  patternOk r g x y && r.conditions.all fun c => condOk c g x y

/-- `RuleSet`: the ordered rules plus the state alphabet (alias, value)
pairs.  The alias maps are not consulted by the stepping engine. -/
structure RuleSet where
  rules : List Rule
  states : List (String × String)

/-- The `Grid` object: declared `width`/`height`, the generation counter
`turn`, and the cell array `grid`. -/
structure Grid where
  width : Nat
  height : Nat
  turn : Nat
  grid : CellGrid

/-- `Grid.calculate_next_cell_state`: the first rule (in `RuleSet` order)
that matches determines the next state; otherwise the current state is
returned unchanged. -/
def Grid.calculate_next_cell_state (G : Grid) (x y : Int) (rs : RuleSet) : String :=
  match rs.rules.find? (fun r => r.mtch G.grid x y) with
  | some r => r.new_state
  | none => gridGet G.grid x y

/-- `Grid.step`: bump `turn`, copy the grid into `new_grid`, overwrite every
cell visited by `for x in range(height): for y in range(width)` with
`calculate_next_cell_state` computed against the *old* `self.grid`, then
install `new_grid`. -/
def Grid.step (G : Grid) (rs : RuleSet) : Grid :=
  { G with
    turn := G.turn + 1
    grid := G.grid.mapIdx fun x row =>
      row.mapIdx fun y v =>
        if x < G.height ∧ y < G.width
        then G.calculate_next_cell_state (x : Int) (y : Int) rs
        else v }

/-- `Grid.__init__` reduced to its observable contract: the constructor
succeeds, storing `initial` as the cell array, exactly when `initial[0][0]`
is a truthy single-character string (the asserted condition); otherwise it
raises (`AssertionError`, or `IndexError` for an empty `initial`), modeled
as `none`.  No other cell, and neither the declared `width`/`height` nor
rectangularity, is ever inspected. -/
def grid_init (width height : Nat) (initial : List (List String)) : Option Grid :=
  let c := (initial.headD []).headD ""
  if c ≠ "" ∧ c.length = 1 then
    some { width := width, height := height, turn := 0, grid := initial }
  else
    none

/-- Well-formedness the constructor's callers establish in practice:
the stored array really has the declared `height × width` shape. -/
def GridWf (G : Grid) : Prop :=
  G.grid.length = G.height ∧ ∀ row ∈ G.grid, row.length = G.width

instance (G : Grid) : Decidable (GridWf G) := by
  unfold GridWf; infer_instance

/-! ## Helper lemmas -/

theorem getD_mapIdx {A B : Type} (l : List A) (f : Nat → A → B) (i : Nat) (d : B) (d' : A)
    (h : i < l.length) :
    (l.mapIdx f).getD i d = f i (l.getD i d') := by
  rw [List.getD_eq_getElem _ _ (by simpa using h), List.getElem_mapIdx,
    List.getD_eq_getElem _ _ h]

/-- The cell the committed `new_grid` holds at an in-range coordinate is
`calculate_next_cell_state` computed against the pre-step grid. -/
theorem step_grid_get (G : Grid) (rs : RuleSet) (x y : Nat)
    (hWf : GridWf G) (hx : x < G.height) (hy : y < G.width) :
    gridGet (G.step rs).grid (x : Int) (y : Int) =
      G.calculate_next_cell_state (x : Int) (y : Int) rs := by
  obtain ⟨hL, hR⟩ := hWf
  have hx' : x < G.grid.length := by omega
  have hrow : (G.grid.getD x []).length = G.width := by
    rw [List.getD_eq_getElem _ _ hx']
    exact hR _ (List.getElem_mem hx')
  have hy' : y < (G.grid.getD x []).length := by omega
  unfold Grid.step gridGet
  simp only [Int.toNat_ofNat]
  rw [getD_mapIdx _ _ _ _ [] hx', getD_mapIdx _ _ _ _ "" hy']
  simp [hx, hy]

/-- Congruence of `List.all` under pointwise equal predicates. -/
theorem all_congr_of_mem {A : Type} {l : List A} {p q : A → Bool}
    (h : ∀ a ∈ l, p a = q a) : l.all p = l.all q := by
  induction l with
  | nil => rfl
  | cons a t ih =>
      simp only [List.all_cons, h a (List.mem_cons_self a t),
        ih fun b hb => h b (List.mem_cons_of_mem a hb)]

/-- The per-offset check of the pattern loop, spelled out. -/
theorem offsetOk_eq_true_iff (r : Rule) (g : CellGrid) (x y dx dy : Int) :
    offsetOk r g x y dx dy = true ↔
      patCell r.pattern dx dy = "X" ∨
      (inb (gridShape g).1 (gridShape g).2 (x + dx) (y + dy) = true ∧
       gridGet g (x + dx) (y + dy) = patCell r.pattern dx dy) := by
  unfold offsetOk
  by_cases hX : patCell r.pattern dx dy = "X"
  · simp [hX]
  · simp [hX, beq_iff_eq]

/-! ## Example data used by concrete instantiations -/

/-- All-wildcard 3×3 pattern. -/
def patAllX : List (List String) := [["X","X","X"],["X","X","X"],["X","X","X"]]

/-- A 2×2 grid object: an electron head at (0,0), the rest empty. -/
def exGrid : Grid := ⟨2, 2, 7, [["H", "_"], ["_", "_"]]⟩

/-- "A head becomes a tail": concrete center `H`, wildcards elsewhere. -/
def ruleHeadToTail : Rule :=
  ⟨"head_to_tail", "", [["X","X","X"],["X","H","X"],["X","X","X"]], "T", []⟩

/-- "An empty cell with exactly one head neighbor becomes wire". -/
def ruleEmptyToWire : Rule :=
  ⟨"empty_to_wire", "", [["X","X","X"],["X","_","X"],["X","X","X"]], "W",
    [⟨"neighbor_count", "H", "IN", [1]⟩]⟩

/-- An example rule set holding the two rules above and the alphabet. -/
def exRS : RuleSet :=
  ⟨[ruleHeadToTail, ruleEmptyToWire],
   [("_", "empty"), ("H", "head"), ("T", "tail"), ("W", "wire")]⟩

/-! ## Claims -/

/-- C1: for every grid and rule set, `step` computes the next state of
every cell `(x, y)` against the grid exactly as it was before the step
began: the post-step grid at `(x, y)` equals `calculate_next_cell_state`
evaluated on the pre-step grid, so no cell's computation observes another
cell's already-updated value from the same step. -/
theorem C1_step_uses_snapshot (G : Grid) (rs : RuleSet) (hWf : GridWf G) :
    ∀ x y : Nat, x < G.height → y < G.width →
      gridGet (G.step rs).grid (x : Int) (y : Int) =
        G.calculate_next_cell_state (x : Int) (y : Int) rs :=
  fun x y hx hy => step_grid_get G rs x y hWf hx hy

/-- C1 witness: the concrete 2×2 grid and rule set. -/
theorem C1_step_uses_snapshot_witness :
    GridWf exGrid ∧
    gridGet (exGrid.step exRS).grid ((0 : Nat) : Int) ((0 : Nat) : Int) =
      exGrid.calculate_next_cell_state ((0 : Nat) : Int) ((0 : Nat) : Int) exRS :=
  ⟨by decide, C1_step_uses_snapshot exGrid exRS (by decide) 0 0 (by decide) (by decide)⟩

/-- C2: the pattern part of `Rule.matches` succeeds iff, at each of the 9
offsets (the center `(0,0)` treated exactly like any other), the pattern
cell is the wildcard or the neighbor coordinate `(x+dx, y+dy)` is inside
the grid bounds and the grid's state there equals the pattern's required
state; and a full match requires the pattern part to pass. -/
theorem C2_pattern_part_iff (r : Rule) (g : CellGrid) (x y : Int) :
    (r.mtch g x y = true → patternOk r g x y = true) ∧
    (patternOk r g x y = true ↔
      ∀ d ∈ offsets9,
        patCell r.pattern d.1 d.2 = "X" ∨
        (inb (gridShape g).1 (gridShape g).2 (x + d.1) (y + d.2) = true ∧
         gridGet g (x + d.1) (y + d.2) = patCell r.pattern d.1 d.2)) := by
  constructor
  · intro h
    exact ((Bool.and_eq_true _ _).mp h).1
  · unfold patternOk
    rw [List.all_eq_true]
    constructor
    · intro H d hd
      exact (offsetOk_eq_true_iff r g x y d.1 d.2).mp (H d hd)
    · intro H d hd
      exact (offsetOk_eq_true_iff r g x y d.1 d.2).mpr (H d hd)

/-- A rule whose 3×3 pattern requires `_` at every offset (no wildcard). -/
def ruleAllEmpty : Rule :=
  ⟨"all_empty", "", [["_","_","_"],["_","_","_"],["_","_","_"]], "Q", []⟩

/-- An all-empty 3×3 grid. -/
def exG3 : CellGrid := [["_","_","_"],["_","_","_"],["_","_","_"]]

/-- C2 witness: the characterization at the corner `(0,0)` of the all-empty
3×3 grid under the all-concrete pattern; the added conjunct checks the
boundary consequence — the concrete off-grid requirement makes the corner
fail even though every in-grid neighbor agrees. -/
theorem C2_pattern_part_iff_witness :
    ((ruleAllEmpty.mtch exG3 0 0 = true → patternOk ruleAllEmpty exG3 0 0 = true) ∧
     (patternOk ruleAllEmpty exG3 0 0 = true ↔
       ∀ d ∈ offsets9,
         patCell ruleAllEmpty.pattern d.1 d.2 = "X" ∨
         (inb (gridShape exG3).1 (gridShape exG3).2 (0 + d.1) (0 + d.2) = true ∧
          gridGet exG3 (0 + d.1) (0 + d.2) = patCell ruleAllEmpty.pattern d.1 d.2))) ∧
    patternOk ruleAllEmpty exG3 0 0 = false :=
  ⟨C2_pattern_part_iff ruleAllEmpty exG3 0 0, by decide⟩

/-- The 8 adjacent offsets, the cell itself excluded. -/
def neigh8 : List (Int × Int) :=
  [(-1,-1),(-1,0),(-1,1),(0,-1),(0,1),(1,-1),(1,0),(1,1)]

/-- Evaluating the nested offset loops. -/
theorem offsets9_eq :
    offsets9 = [(-1,-1),(-1,0),(-1,1),(0,-1),(0,0),(0,1),(1,-1),(1,0),(1,1)] := by rfl

/-- The counted offsets are exactly the 8 adjacent in-bounds cells holding
the counted state. -/
theorem count_neighbors_eq_neigh8 (g : CellGrid) (x y : Int) (s : String) :
    count_neighbors g x y s =
      (neigh8.filter fun d =>
        inb (gridShape g).1 (gridShape g).2 (x + d.1) (y + d.2) &&
        (gridGet g (x + d.1) (y + d.2) == s)).length := by
  unfold count_neighbors neigh8
  rw [offsets9_eq]
  simp [List.filter_cons]

/-- Modelled from the spec, §4.2: the claimed condition evaluator, which
consults `condition.operator` — `IN` passes iff the count is a member of
`values`, `NOT_IN` passes iff it is not.  Stated only to be compared with
the code's `condOk`. -/
def condPassSpec (c : Condition) (g : CellGrid) (x y : Int) : Bool :=
  let n := count_neighbors g x y c.state
  if c.operator = "NOT_IN" then decide (n ∉ c.values) else decide (n ∈ c.values)

/-- A `NOT_IN` condition on which the code and the claim disagree. -/
def cexCond : Condition := ⟨"neighbor_count", "_", "NOT_IN", [0]⟩

/-- A 1×1 grid: every neighbor of `(0,0)` is out of bounds, so all counts
are `0`. -/
def cexGrid : CellGrid := [["_"]]

/-- C3 counterexample: the code never consults `operator`.  Here
`operator = "NOT_IN"` and the count (0) is a member of `values`, so the
claim says the condition fails — but the code passes it (and the
spec-worded evaluator `condPassSpec` disagrees with the code here). -/
theorem C3_counterexample :
    cexCond.operator = "NOT_IN" ∧
    count_neighbors cexGrid 0 0 cexCond.state ∈ cexCond.values ∧
    condOk cexCond cexGrid 0 0 = true ∧
    condPassSpec cexCond cexGrid 0 0 = false := by decide

/-- C3 (amended): the neighbor count is the number of the 8 adjacent cells
(excluding the cell itself, out-of-bounds contributing nothing) whose state
equals `condition.state`; a `neighbor_count` condition passes iff the count
is a member of `condition.values` — membership (IN) semantics regardless of
the condition's `operator` field, `NOT_IN` not being implemented; all
conditions must pass (logical AND) together with the 3×3 pattern. -/
theorem C3_condition_semantics (r : Rule) (g : CellGrid) (x y : Int) (c : Condition)
    (hc : c.type = "neighbor_count") :
    (condOk c g x y = true ↔ count_neighbors g x y c.state ∈ c.values) ∧
    count_neighbors g x y c.state =
      (neigh8.filter fun d =>
        inb (gridShape g).1 (gridShape g).2 (x + d.1) (y + d.2) &&
        (gridGet g (x + d.1) (y + d.2) == c.state)).length ∧
    (r.mtch g x y = true ↔
      (patternOk r g x y = true ∧ ∀ c' ∈ r.conditions, condOk c' g x y = true)) := by
  refine ⟨?_, count_neighbors_eq_neigh8 g x y c.state, ?_⟩
  · unfold condOk
    simp [hc]
  · unfold Rule.mtch
    rw [Bool.and_eq_true, List.all_eq_true]

/-- The neighbor-count condition of `ruleEmptyToWire`. -/
def wCond : Condition := ⟨"neighbor_count", "H", "IN", [1]⟩

/-- C3 witness: the amended semantics at cell `(1,1)` of the example grid. -/
theorem C3_condition_semantics_witness :
    (condOk wCond exGrid.grid 1 1 = true ↔
      count_neighbors exGrid.grid 1 1 wCond.state ∈ wCond.values) ∧
    count_neighbors exGrid.grid 1 1 wCond.state =
      (neigh8.filter fun d =>
        inb (gridShape exGrid.grid).1 (gridShape exGrid.grid).2 (1 + d.1) (1 + d.2) &&
        (gridGet exGrid.grid (1 + d.1) (1 + d.2) == wCond.state)).length ∧
    (ruleEmptyToWire.mtch exGrid.grid 1 1 = true ↔
      (patternOk ruleEmptyToWire exGrid.grid 1 1 = true ∧
       ∀ c' ∈ ruleEmptyToWire.conditions, condOk c' exGrid.grid 1 1 = true)) :=
  C3_condition_semantics ruleEmptyToWire exGrid.grid 1 1 wCond rfl

/-- C4: `calculate_next_cell_state` returns the result of the first rule
(in declared order) that matches; later rules are never consulted, so when
an earlier and a later rule both apply the earlier one's result wins. -/
theorem C4_first_match_wins (G : Grid) (x y : Int) (states : List (String × String))
    (pre post : List Rule) (r : Rule)
    (hpre : ∀ r' ∈ pre, r'.mtch G.grid x y = false)
    (hr : r.mtch G.grid x y = true) :
    G.calculate_next_cell_state x y ⟨pre ++ r :: post, states⟩ = r.new_state := by
  have hfind : (pre ++ r :: post).find? (fun r' => r'.mtch G.grid x y) = some r := by
    induction pre with
    | nil =>
        rw [List.nil_append]
        exact List.find?_cons_of_pos (p := fun r' => r'.mtch G.grid x y) post hr
    | cons a t ih =>
        rw [List.cons_append, List.find?_cons_of_neg]
        · exact ih fun r' h => hpre r' (List.mem_cons_of_mem a h)
        · simp [hpre a (List.mem_cons_self a t)]
  unfold Grid.calculate_next_cell_state
  simp only [hfind]

/-- A rule whose pattern demands `Z` above-left, unmatchable at `(0,0)`. -/
def ruleNever : Rule :=
  ⟨"never", "", [["Z","X","X"],["X","X","X"],["X","X","X"]], "A", []⟩

/-- A catch-all rule with a result differing from `ruleHeadToTail`. -/
def ruleAnyB : Rule := ⟨"any", "", patAllX, "B", []⟩

/-- C4 witness: generic-then-specific ordering; both `ruleHeadToTail` and
the later `ruleAnyB` apply at `(0,0)`, their results differ, and the
engine returns the earlier rule's result. -/
theorem C4_first_match_wins_witness :
    (∀ r' ∈ [ruleNever], r'.mtch exGrid.grid 0 0 = false) ∧
    ruleHeadToTail.mtch exGrid.grid 0 0 = true ∧
    ruleAnyB.mtch exGrid.grid 0 0 = true ∧
    ruleAnyB.new_state ≠ ruleHeadToTail.new_state ∧
    exGrid.calculate_next_cell_state 0 0 ⟨[ruleNever] ++ ruleHeadToTail :: [ruleAnyB], []⟩ =
      ruleHeadToTail.new_state :=
  ⟨by decide, by decide, by decide, by decide,
   C4_first_match_wins exGrid 0 0 [] [ruleNever] [ruleAnyB] ruleHeadToTail
     (by decide) (by decide)⟩

/-- C5: at a cell where no rule matches, `calculate_next_cell_state`
returns the cell's current state (no error is modeled or needed — the
total function simply falls through), and `step` leaves the cell
unchanged. -/
theorem C5_unmatched_unchanged (G : Grid) (rs : RuleSet) (x y : Nat)
    (hWf : GridWf G) (hx : x < G.height) (hy : y < G.width)
    (hnone : ∀ r ∈ rs.rules, r.mtch G.grid (x : Int) (y : Int) = false) :
    G.calculate_next_cell_state (x : Int) (y : Int) rs =
      gridGet G.grid (x : Int) (y : Int) ∧
    gridGet (G.step rs).grid (x : Int) (y : Int) =
      gridGet G.grid (x : Int) (y : Int) := by
  have hfind : rs.rules.find? (fun r => r.mtch G.grid (x : Int) (y : Int)) = none := by
    rw [List.find?_eq_none]
    intro r hr
    simp [hnone r hr]
  have h1 : G.calculate_next_cell_state (x : Int) (y : Int) rs =
      gridGet G.grid (x : Int) (y : Int) := by
    unfold Grid.calculate_next_cell_state
    simp only [hfind]
  exact ⟨h1, by rw [step_grid_get G rs x y hWf hx hy]; exact h1⟩

/-- A rule set whose only rule cannot match the example grid's corner. -/
def rsNever : RuleSet := ⟨[ruleAllEmpty], []⟩

/-- C5 witness: the corner `(0,0)` of the example grid under a rule set
none of whose rules matches there. -/
theorem C5_unmatched_unchanged_witness :
    GridWf exGrid ∧
    (∀ r ∈ rsNever.rules, r.mtch exGrid.grid ((0 : Nat) : Int) ((0 : Nat) : Int) = false) ∧
    (exGrid.calculate_next_cell_state ((0 : Nat) : Int) ((0 : Nat) : Int) rsNever =
       gridGet exGrid.grid ((0 : Nat) : Int) ((0 : Nat) : Int) ∧
     gridGet (exGrid.step rsNever).grid ((0 : Nat) : Int) ((0 : Nat) : Int) =
       gridGet exGrid.grid ((0 : Nat) : Int) ((0 : Nat) : Int)) :=
  ⟨by decide, by decide,
   C5_unmatched_unchanged exGrid rsNever 0 0 (by decide) (by decide) (by decide)
     (by decide)⟩

/-- C6: `step` keeps `width` and `height`, advances `turn` by exactly one,
and leaves every cell holding either its pre-step state or the declared
result of some rule of the rule set; the grid object has no further
fields. -/
theorem C6_frame (G : Grid) (rs : RuleSet) (hWf : GridWf G) :
    (G.step rs).width = G.width ∧
    (G.step rs).height = G.height ∧
    (G.step rs).turn = G.turn + 1 ∧
    ∀ x y : Nat, x < G.height → y < G.width →
      gridGet (G.step rs).grid (x : Int) (y : Int) =
        gridGet G.grid (x : Int) (y : Int) ∨
      ∃ r ∈ rs.rules, gridGet (G.step rs).grid (x : Int) (y : Int) = r.new_state := by
  refine ⟨rfl, rfl, rfl, fun x y hx hy => ?_⟩
  rw [step_grid_get G rs x y hWf hx hy]
  unfold Grid.calculate_next_cell_state
  cases hf : rs.rules.find? (fun r => r.mtch G.grid (x : Int) (y : Int)) with
  | none => left; rfl
  | some r =>
      right
      exact ⟨r, List.mem_of_find?_eq_some hf, rfl⟩

/-- C6 witness: the example grid and rule set, checked at cell `(0,0)`. -/
theorem C6_frame_witness :
    GridWf exGrid ∧
    ((exGrid.step exRS).width = exGrid.width ∧
     (exGrid.step exRS).height = exGrid.height ∧
     (exGrid.step exRS).turn = exGrid.turn + 1 ∧
     ∀ x y : Nat, x < exGrid.height → y < exGrid.width →
       gridGet (exGrid.step exRS).grid (x : Int) (y : Int) =
         gridGet exGrid.grid (x : Int) (y : Int) ∨
       ∃ r ∈ exRS.rules, gridGet (exGrid.step exRS).grid (x : Int) (y : Int) =
         r.new_state) :=
  ⟨by decide, C6_frame exGrid exRS (by decide)⟩

/-- `calculate_next_cell_state` reads the grid object only through its
cell array. -/
theorem calc_next_congr (g1 g2 : Grid) (x y : Int) (rs : RuleSet)
    (h : g1.grid = g2.grid) :
    g1.calculate_next_cell_state x y rs = g2.calculate_next_cell_state x y rs := by
  unfold Grid.calculate_next_cell_state
  rw [h]

/-- C7: `step` is deterministic — two grid objects sharing the same
starting snapshot (dimensions and cell array; `turn` may differ) step to
identical cell arrays — and each in-range cell's resolution is a function
of the pre-step snapshot and the cell's own coordinates alone. -/
theorem C7_deterministic (g1 g2 : Grid) (rs : RuleSet)
    (hW : g1.width = g2.width) (hH : g1.height = g2.height)
    (hC : g1.grid = g2.grid) :
    (g1.step rs).grid = (g2.step rs).grid ∧
    (GridWf g1 → ∀ x y : Nat, x < g1.height → y < g1.width →
      gridGet (g1.step rs).grid (x : Int) (y : Int) =
        g1.calculate_next_cell_state (x : Int) (y : Int) rs) := by
  constructor
  · unfold Grid.step
    simp only [Grid.calculate_next_cell_state, hC, hH, hW]
  · intro hWf x y hx hy
    exact step_grid_get g1 rs x y hWf hx hy

/-- An independent copy of the example grid's snapshot at another `turn`. -/
def exGridCopy : Grid := ⟨2, 2, 123, [["H", "_"], ["_", "_"]]⟩

/-- C7 witness: the example grid and an independent copy (differing
`turn`) step to identical cell arrays. -/
theorem C7_deterministic_witness :
    (exGrid.step exRS).grid = (exGridCopy.step exRS).grid ∧
    (GridWf exGrid → ∀ x y : Nat, x < exGrid.height → y < exGrid.width →
      gridGet (exGrid.step exRS).grid (x : Int) (y : Int) =
        exGrid.calculate_next_cell_state (x : Int) (y : Int) exRS) :=
  C7_deterministic exGrid exGridCopy exRS (by decide) (by decide) (by decide)

/-- A malformed initial array: cell `(0,1)` is not a single character. -/
def badInitial : List (List String) := [["a", "bb"], ["c", "d"]]

/-- C8 fails on the code: `Grid.__init__` inspects only `initial[0][0]`
(its own assertion message demands "a 2D list of single-character strings",
but the asserted expression checks just the first cell).  It accepts an
array containing a multi-character cell, and accepts an array whose
dimensions disagree with the declared `width`/`height`; no shape or
rectangularity validation exists anywhere in the constructor. -/
theorem C8_accepts_malformed :
    grid_init 2 2 badInitial = some ⟨2, 2, 0, badInitial⟩ ∧
    grid_init 5 5 [["a"]] = some ⟨5, 5, 0, [["a"]]⟩ :=
  ⟨rfl, rfl⟩

/-- C9: a pattern cell holding the literal `"X"` constrains nothing: the
pattern check is insensitive to the grid's contents at wildcard offsets.
For two same-shape grids agreeing at every offset whose pattern cell is
not `"X"`, the pattern check coincides — whatever the wildcard-offset
cells hold, including a state named `"X"` itself (the check never consults
the alphabet, so a declared alias `"X"` is still swallowed by the
wildcard); hence no pattern can require a cell to concretely hold a state
named `"X"`. -/
theorem C9_wildcard_insensitive (r : Rule) (g g' : CellGrid) (x y : Int)
    (hshape : gridShape g' = gridShape g)
    (hagree : ∀ d ∈ offsets9, patCell r.pattern d.1 d.2 ≠ "X" →
      gridGet g' (x + d.1) (y + d.2) = gridGet g (x + d.1) (y + d.2)) :
    patternOk r g' x y = patternOk r g x y := by
  unfold patternOk
  apply all_congr_of_mem
  intro d hd
  unfold offsetOk
  by_cases hX : patCell r.pattern d.1 d.2 = "X"
  · simp [hX]
  · simp only [beq_iff_eq, if_neg hX]
    rw [hshape, hagree d hd hX]

/-- A grid sharing the example grid's shape and its `(0,0)` cell, with the
wildcard-covered cells replaced — one of them by the literal `"X"`. -/
def exGridX : CellGrid := [["H", "X"], ["W", "T"]]

/-- C9 witness: `ruleHeadToTail` pins only the center; at `(0,0)` the
pattern check agrees between the example grid and `exGridX`, although
every wildcard-covered cell differs (one even holds `"X"`). -/
theorem C9_wildcard_insensitive_witness :
    gridShape exGridX = gridShape exGrid.grid ∧
    (∀ d ∈ offsets9, patCell ruleHeadToTail.pattern d.1 d.2 ≠ "X" →
      gridGet exGridX (0 + d.1) (0 + d.2) = gridGet exGrid.grid (0 + d.1) (0 + d.2)) ∧
    patternOk ruleHeadToTail exGridX 0 0 = patternOk ruleHeadToTail exGrid.grid 0 0 :=
  ⟨by decide, by decide,
   C9_wildcard_insensitive ruleHeadToTail exGrid.grid exGridX 0 0 (by decide) (by decide)⟩

/-- C10: a condition whose `type` is anything other than
`'neighbor_count'` is silently treated as satisfied — skipped without
evaluation and without error — so a rule whose conditions all have
unrecognized types fires on its pattern match alone. -/
theorem C10_unknown_condition_skipped (r : Rule) (g : CellGrid) (x y : Int)
    (c : Condition) (hc : c.type ≠ "neighbor_count") :
    condOk c g x y = true ∧
    ((∀ c' ∈ r.conditions, c'.type ≠ "neighbor_count") →
      r.mtch g x y = patternOk r g x y) := by
  constructor
  · unfold condOk
    simp [hc]
  · intro hall
    unfold Rule.mtch
    have h2 : r.conditions.all (fun c' => condOk c' g x y) = true := by
      rw [List.all_eq_true]
      intro c' hc'
      unfold condOk
      simp [hall c' hc']
    rw [h2, Bool.and_true]

/-- A condition of an unrecognized type. -/
def bogusCond : Condition := ⟨"frobnicate", "H", "IN", [3]⟩

/-- A rule carrying only the unrecognized condition, all-wildcard pattern. -/
def ruleBogus : Rule := ⟨"bogus", "", patAllX, "B", [bogusCond]⟩

/-- C10 witness: the unrecognized condition passes vacuously and the rule
fires on the pattern alone. -/
theorem C10_unknown_condition_skipped_witness :
    bogusCond.type ≠ "neighbor_count" ∧
    (condOk bogusCond exGrid.grid 0 0 = true ∧
     ((∀ c' ∈ ruleBogus.conditions, c'.type ≠ "neighbor_count") →
       ruleBogus.mtch exGrid.grid 0 0 = patternOk ruleBogus exGrid.grid 0 0)) ∧
    ruleBogus.mtch exGrid.grid 0 0 = true :=
  ⟨by decide,
   C10_unknown_condition_skipped ruleBogus exGrid.grid 0 0 bogusCond (by decide),
   by decide⟩
